import Mathlib

/-!
Verification of the pre-block mandatory system-call subsystem of
`mantle-xyz/evm` (`crates/evm/src/block/system_calls/eip2935.rs` and
`crates/evm/src/block/system_calls/eip4788.rs`).

The two Rust procedures `transact_blockhashes_contract_call` (EIP-2935) and
`transact_beacon_root_contract_call` (EIP-4788) are embedded as pure Lean
functions. Stateful interaction with the EVM engine is made explicit: the
engine handle is a record carrying the block environment and the
`transact_system_call` dispatcher as a function, and each embedded procedure
returns, next to the `Result<Option<ResultAndState>, BlockExecutionError>`
value of the Rust function, the trace of observable engine events it
produced — each dispatcher invocation (with sender, target and input bytes)
and, inside the success-logging branch, the raw reinterpretation of the
generic halt reason performed by the source's
`unsafe { std::mem::transmute::<&Halt, &OpHaltReason>(reason) }` line.
-/

namespace MantleEvm

/-- A 20-byte account address (`alloy_primitives::Address`), embedded as a
natural number below 2^160. -/
abbrev Address := Nat

/-- A 32-byte hash value (`alloy_primitives::B256`), embedded as its list of
bytes. The sole operations the source uses are `.is_zero()` and the
conversion `.0.into()` handing the raw 32 bytes to the dispatcher. -/
structure B256 where
  bytes : List Nat
deriving DecidableEq, Repr

/-- `B256::is_zero`: every byte of the value is zero. -/
def B256.is_zero (b : B256) : Bool :=
  b.bytes.all (fun x => x == 0)

/-- `alloy_eips::eip4788::SYSTEM_ADDRESS`, the fixed system-call sender
`0xfffffffffffffffffffffffffffffffffffffffe` defined by EIP-4788. -/
def SYSTEM_ADDRESS : Address := 0xfffffffffffffffffffffffffffffffffffffffe

/-- `alloy_eips::eip2935::HISTORY_STORAGE_ADDRESS`, the fixed contract
address `0x0000F90827F1C53a10cb7A02335B175320002935` defined by EIP-2935. -/
def HISTORY_STORAGE_ADDRESS : Address := 0x0000F90827F1C53a10cb7A02335B175320002935

/-- `alloy_eips::eip4788::BEACON_ROOTS_ADDRESS`, the fixed contract address
`0x000F3df6D732807Ef1319fB7B8bB8522d0Beac02` defined by EIP-4788. -/
def BEACON_ROOTS_ADDRESS : Address := 0x000F3df6D732807Ef1319fB7B8bB8522d0Beac02

/-- The block environment accessor `evm.block()` exposes: `timestamp` and
`number`, both `u64`. -/
structure BlockEnv where
  timestamp : Nat
  number : Nat
deriving DecidableEq, Repr

/-- The `alloy_hardforks::EthereumHardforks` capability, as consumed by the
two procedures: pure boolean activation queries by timestamp. -/
structure EthereumHardforks where
  is_cancun_active_at_timestamp : Nat → Bool
  is_prague_active_at_timestamp : Nat → Bool

/-- `revm`'s `ExecutionResult<Halt>`, generic over the halt-reason type.
The payload types never inspected by this subsystem (success reason codes,
logs, outputs) are embedded as plain naturals / byte lists. -/
inductive ExecutionResult (Halt : Type) where
  | Success (reason : Nat) (gas_used : Nat) (gas_refunded : Nat)
      (logs : List (List Nat)) (output : List Nat)
  | Revert (gas_used : Nat) (output : List Nat)
  | Halt (reason : Halt) (gas_used : Nat)
deriving DecidableEq, Repr

/-- `revm`'s `ResultAndState<Halt>`: an execution outcome paired with the
state diff (a map from address to post-call account state; account states
are never inspected here, embedded as naturals). -/
structure ResultAndState (Halt : Type) where
  result : ExecutionResult Halt
  state : List (Address × Nat)
deriving DecidableEq, Repr

/-- An engine-level failure returned by the dispatcher; the only operation
the source applies to it is `e.to_string()`. -/
structure EvmError where
  description : String
deriving DecidableEq, Repr

/-- `e.to_string()` on an engine failure. -/
def EvmError.to_string (e : EvmError) : String :=
  e.description

/-- The `BlockValidationError` variants constructed by the two procedures. -/
inductive BlockValidationError where
  | MissingParentBeaconBlockRoot
  | CancunGenesisParentBeaconBlockRootNotZero (parent_beacon_block_root : B256)
  | BlockHashContractCall (message : String)
  | BeaconRootContractCall (parent_beacon_block_root : B256) (message : String)
deriving DecidableEq, Repr

/-- `BlockExecutionError`; the procedures build it from a
`BlockValidationError` via `.into()`. -/
inductive BlockExecutionError where
  | Validation (e : BlockValidationError)
deriving DecidableEq, Repr

/-- The engine handle `impl Evm<HaltReason = Halt>` as consumed here: the
block environment accessor and the `transact_system_call` capability
(sender, target, input bytes → outcome-and-state-diff or engine failure). -/
structure Evm (Halt : Type) where
  block : BlockEnv
  transact_system_call :
    Address → Address → List Nat → Except EvmError (ResultAndState Halt)

/-- Observable engine events of one procedure run: a dispatcher invocation
with its arguments, or the raw halt-reason reinterpretation the source's
Halt-branch logging performs via `std::mem::transmute::<&Halt, &OpHaltReason>`. -/
inductive TraceEvent where
  | dispatch (caller : Address) (target : Address) (data : List Nat)
  | reinterpretHaltRaw
deriving DecidableEq, Repr

/-- The logging `match &res.result` block in the `Ok` arm of both
procedures: only its `Halt` branch has an observable effect beyond text
output — the unchecked reinterpretation of the generic halt reason as
`OpHaltReason`. All other branches only format data they borrow. -/
def haltLogEvents {Halt : Type} (r : ExecutionResult Halt) : List TraceEvent :=
  match r with
  | .Halt _ _ => [.reinterpretHaltRaw]
  | _ => []

/-- Embedding of `transact_blockhashes_contract_call` (eip2935.rs), paired
with the trace of engine events. Control flow of the source: Prague gate,
genesis check, dispatcher invocation, error mapping to
`BlockHashContractCall`. -/
def transact_blockhashes_contract_call (Halt : Type)
    (spec : EthereumHardforks) (parent_block_hash : B256) (evm : Evm Halt) :
    Except BlockExecutionError (Option (ResultAndState Halt)) × List TraceEvent :=
  if spec.is_prague_active_at_timestamp evm.block.timestamp = false then
    (.ok none, [])
  else if evm.block.number = 0 then
    (.ok none, [])
  else
    match evm.transact_system_call SYSTEM_ADDRESS HISTORY_STORAGE_ADDRESS
        parent_block_hash.bytes with
    | .ok res =>
        (.ok (some res),
          .dispatch SYSTEM_ADDRESS HISTORY_STORAGE_ADDRESS parent_block_hash.bytes
            :: haltLogEvents res.result)
    | .error e =>
        (.error (.Validation (.BlockHashContractCall e.to_string)),
          [.dispatch SYSTEM_ADDRESS HISTORY_STORAGE_ADDRESS parent_block_hash.bytes])

/-- Embedding of `transact_beacon_root_contract_call` (eip4788.rs), paired
with the trace of engine events. Control flow of the source: Cancun gate,
`ok_or(MissingParentBeaconBlockRoot)?` on the optional root, genesis check
with the zero-root validation, dispatcher invocation, error mapping to
`BeaconRootContractCall`. -/
def transact_beacon_root_contract_call (Halt : Type)
    (spec : EthereumHardforks) (parent_beacon_block_root : Option B256)
    (evm : Evm Halt) :
    Except BlockExecutionError (Option (ResultAndState Halt)) × List TraceEvent :=
  if spec.is_cancun_active_at_timestamp evm.block.timestamp = false then
    (.ok none, [])
  else
    match parent_beacon_block_root with
    | none => (.error (.Validation .MissingParentBeaconBlockRoot), [])
    | some root =>
      if evm.block.number = 0 then
        if root.is_zero = false then
          (.error (.Validation (.CancunGenesisParentBeaconBlockRootNotZero root)), [])
        else
          (.ok none, [])
      else
        match evm.transact_system_call SYSTEM_ADDRESS BEACON_ROOTS_ADDRESS
            root.bytes with
        | .ok res =>
            (.ok (some res),
              .dispatch SYSTEM_ADDRESS BEACON_ROOTS_ADDRESS root.bytes
                :: haltLogEvents res.result)
        | .error e =>
            (.error (.Validation (.BeaconRootContractCall root e.to_string)),
              [.dispatch SYSTEM_ADDRESS BEACON_ROOTS_ADDRESS root.bytes])

/-- Projection of a trace event to a dispatcher-invocation record, dropping
logging events. -/
def TraceEvent.dispatchRecord : TraceEvent → Option (Address × Address × List Nat)
  | .dispatch c t d => some (c, t, d)
  | .reinterpretHaltRaw => none

/-- The dispatcher invocations recorded in a trace, in order. -/
def dispatches (tr : List TraceEvent) : List (Address × Address × List Nat) :=
  tr.filterMap TraceEvent.dispatchRecord

/-! Concrete fixtures used by witness theorems. -/

/-- A hardfork schedule in which neither Cancun nor Prague is ever active. -/
def specOff : EthereumHardforks :=
  ⟨fun _ => false, fun _ => false⟩

/-- A hardfork schedule in which Cancun and Prague are active at every
timestamp. -/
def specOn : EthereumHardforks :=
  ⟨fun _ => true, fun _ => true⟩

/-- A non-zero 32-byte value, every byte `0xAA`. -/
def rootAA : B256 :=
  ⟨List.replicate 32 0xAA⟩

/-- The zero 32-byte hash. -/
def rootZero : B256 :=
  ⟨List.replicate 32 0⟩

/-- A dispatcher success outcome whose result is a `Revert`, over the unit
halt-reason type. -/
def resRevert : ResultAndState Unit :=
  ⟨.Revert 21000 [1, 2], [(5, 7), (6, 8)]⟩

/-- A dispatcher success outcome whose result is a `Halt`, over the unit
halt-reason type. -/
def resHalt : ResultAndState Unit :=
  ⟨.Halt () 1000, [(5, 7)]⟩

/-- An engine handle at block number `n` whose dispatcher always succeeds
with `resRevert`. -/
def evmOk (n : Nat) : Evm Unit :=
  ⟨⟨1700000000, n⟩, fun _ _ _ => .ok resRevert⟩

/-- An engine handle at block number `n` whose dispatcher always succeeds
with `resHalt`. -/
def evmHalt (n : Nat) : Evm Unit :=
  ⟨⟨1700000000, n⟩, fun _ _ _ => .ok resHalt⟩

/-- An engine handle at block number `n` whose dispatcher always fails with
the engine error description "engine cannot execute". -/
def evmErr (n : Nat) : Evm Unit :=
  ⟨⟨1700000000, n⟩, fun _ _ _ => .error ⟨"engine cannot execute"⟩⟩

/-- No dispatcher invocation hides among the Halt-branch logging events. -/
theorem dispatches_haltLogEvents {Halt : Type} (r : ExecutionResult Halt) :
    dispatches (haltLogEvents r) = [] := by
  cases r <;> rfl

/-- Claim C1: if the relevant hardfork (Cancun for the beacon-root
procedure, Prague for the blockhash-history procedure) is not active at the
block's timestamp, both procedures return `Ok(None)` with an empty engine
trace — the dispatcher is never invoked, and the beacon-root procedure does
not inspect the optional root (it returns `Ok(None)` for every root value,
including `none`). -/
theorem C1_inactive_fork_no_call (Halt : Type) (spec : EthereumHardforks)
    (evm : Evm Halt) (hash : B256) (root : Option B256) :
    (spec.is_cancun_active_at_timestamp evm.block.timestamp = false →
      transact_beacon_root_contract_call Halt spec root evm = (.ok none, []))
    ∧ (spec.is_prague_active_at_timestamp evm.block.timestamp = false →
      transact_blockhashes_contract_call Halt spec hash evm = (.ok none, [])) := by
  constructor
  · intro hc
    unfold transact_beacon_root_contract_call
    rw [if_pos hc]
  · intro hp
    unfold transact_blockhashes_contract_call
    rw [if_pos hp]

/-- Witness for C1: with both forks inactive, a non-genesis block, and an
absent beacon root, both procedures return `Ok(None)` with no engine event. -/
theorem C1_inactive_fork_no_call_witness :
    transact_beacon_root_contract_call Unit specOff none (evmOk 5) = (.ok none, [])
    ∧ transact_blockhashes_contract_call Unit specOff rootAA (evmOk 5) = (.ok none, []) :=
  ⟨(C1_inactive_fork_no_call Unit specOff (evmOk 5) rootAA none).1 rfl,
   (C1_inactive_fork_no_call Unit specOff (evmOk 5) rootAA none).2 rfl⟩

/-- Claim C2: for a block of non-zero number with Cancun active at its
timestamp, an absent `parent_beacon_block_root` makes
`transact_beacon_root_contract_call` fail with
`MissingParentBeaconBlockRoot`, with an empty engine trace (the dispatcher
is never invoked). -/
theorem C2_missing_root_error (Halt : Type) (spec : EthereumHardforks)
    (evm : Evm Halt) (_hn : evm.block.number ≠ 0)
    (hc : spec.is_cancun_active_at_timestamp evm.block.timestamp = true) :
    transact_beacon_root_contract_call Halt spec none evm
      = (.error (.Validation .MissingParentBeaconBlockRoot), []) := by
  unfold transact_beacon_root_contract_call
  rw [if_neg (by simp [hc])]

/-- Witness for C2: block number 5, Cancun active, no root supplied. -/
theorem C2_missing_root_error_witness :
    (evmOk 5).block.number ≠ 0
    ∧ transact_beacon_root_contract_call Unit specOn none (evmOk 5)
        = (.error (.Validation .MissingParentBeaconBlockRoot), []) :=
  ⟨by decide, C2_missing_root_error Unit specOn (evmOk 5) (by decide) rfl⟩

/-- Claim C3: at block number 0 the dispatcher is never invoked by either
procedure — `transact_blockhashes_contract_call` returns `Ok(None)` with an
empty trace regardless of Prague activation, and
`transact_beacon_root_contract_call` produces an empty trace and returns
either `Ok(None)` or a validation error after inspecting the supplied
root. -/
theorem C3_genesis_never_dispatches (Halt : Type) (spec : EthereumHardforks)
    (evm : Evm Halt) (hash : B256) (root : Option B256)
    (h0 : evm.block.number = 0) :
    transact_blockhashes_contract_call Halt spec hash evm = (.ok none, [])
    ∧ (transact_beacon_root_contract_call Halt spec root evm).2 = []
    ∧ ((transact_beacon_root_contract_call Halt spec root evm).1 = .ok none
        ∨ ∃ e, (transact_beacon_root_contract_call Halt spec root evm).1 = .error e) := by
  refine ⟨?_, ?_⟩
  · unfold transact_blockhashes_contract_call
    by_cases hp : spec.is_prague_active_at_timestamp evm.block.timestamp = false
    · rw [if_pos hp]
    · rw [if_neg hp, if_pos h0]
  · unfold transact_beacon_root_contract_call
    split
    · exact ⟨rfl, .inl rfl⟩
    · cases root with
      | none => exact ⟨rfl, .inr ⟨_, rfl⟩⟩
      | some r =>
        simp only [h0, if_pos]
        split
        · exact ⟨rfl, .inr ⟨_, rfl⟩⟩
        · exact ⟨rfl, .inl rfl⟩

/-- Witness for C3: block number 0, both forks active, a non-zero root
supplied; the blockhash procedure returns `Ok(None)` and the beacon-root
procedure produces no engine event. -/
theorem C3_genesis_never_dispatches_witness :
    (evmOk 0).block.number = 0
    ∧ (transact_blockhashes_contract_call Unit specOn rootAA (evmOk 0) = (.ok none, [])
        ∧ (transact_beacon_root_contract_call Unit specOn (some rootAA) (evmOk 0)).2 = []
        ∧ ((transact_beacon_root_contract_call Unit specOn (some rootAA) (evmOk 0)).1 = .ok none
            ∨ ∃ e, (transact_beacon_root_contract_call Unit specOn (some rootAA) (evmOk 0)).1
                = .error e)) :=
  ⟨rfl, C3_genesis_never_dispatches Unit specOn (evmOk 0) rootAA (some rootAA) rfl⟩

/-- Claim C4: at block number 0 with Cancun active, a supplied non-zero
root makes `transact_beacon_root_contract_call` fail with
`CancunGenesisParentBeaconBlockRootNotZero` carrying exactly that root,
with no dispatcher invocation. -/
theorem C4_genesis_nonzero_root_error (Halt : Type) (spec : EthereumHardforks)
    (evm : Evm Halt) (root : B256) (h0 : evm.block.number = 0)
    (hc : spec.is_cancun_active_at_timestamp evm.block.timestamp = true)
    (hz : root.is_zero = false) :
    transact_beacon_root_contract_call Halt spec (some root) evm
      = (.error (.Validation (.CancunGenesisParentBeaconBlockRootNotZero root)), []) := by
  unfold transact_beacon_root_contract_call
  rw [if_neg (by simp [hc])]
  simp only [h0, if_pos, hz, if_pos rfl]

/-- Witness for C4: genesis block, Cancun active, root of 32 `0xAA` bytes;
the error carries that exact value. -/
theorem C4_genesis_nonzero_root_error_witness :
    (evmOk 0).block.number = 0 ∧ rootAA.is_zero = false
    ∧ transact_beacon_root_contract_call Unit specOn (some rootAA) (evmOk 0)
        = (.error (.Validation (.CancunGenesisParentBeaconBlockRootNotZero rootAA)), []) :=
  ⟨rfl, by decide, C4_genesis_nonzero_root_error Unit specOn (evmOk 0) rootAA rfl rfl (by decide)⟩

/-- Claim C5: at block number 0 with Cancun active and the zero hash
supplied as the root, `transact_beacon_root_contract_call` returns
`Ok(None)` with an empty engine trace. -/
theorem C5_genesis_zero_root_no_call (Halt : Type) (spec : EthereumHardforks)
    (evm : Evm Halt) (root : B256) (h0 : evm.block.number = 0)
    (hc : spec.is_cancun_active_at_timestamp evm.block.timestamp = true)
    (hz : root.is_zero = true) :
    transact_beacon_root_contract_call Halt spec (some root) evm = (.ok none, []) := by
  unfold transact_beacon_root_contract_call
  rw [if_neg (by simp [hc])]
  simp only [h0, if_pos, hz]
  rfl

/-- Witness for C5: genesis block, Cancun active, zero root. -/
theorem C5_genesis_zero_root_no_call_witness :
    (evmOk 0).block.number = 0 ∧ rootZero.is_zero = true
    ∧ transact_beacon_root_contract_call Unit specOn (some rootZero) (evmOk 0)
        = (.ok none, []) :=
  ⟨rfl, by decide, C5_genesis_zero_root_no_call Unit specOn (evmOk 0) rootZero rfl rfl (by decide)⟩

/-- Claim C6: for a non-genesis block with the relevant fork active and the
required input supplied, each procedure invokes the dispatcher exactly
once, with sender `SYSTEM_ADDRESS`, target `HISTORY_STORAGE_ADDRESS`
(blockhash-history) or `BEACON_ROOTS_ADDRESS` (beacon-root), and input
exactly the supplied 32-byte value's bytes, with no additional encoding —
regardless of the dispatcher's own outcome. -/
theorem C6_dispatch_exactly_once (Halt : Type) (spec : EthereumHardforks)
    (evm : Evm Halt) (hash : B256) (root : B256)
    (hn : evm.block.number ≠ 0)
    (hp : spec.is_prague_active_at_timestamp evm.block.timestamp = true)
    (hc : spec.is_cancun_active_at_timestamp evm.block.timestamp = true) :
    dispatches (transact_blockhashes_contract_call Halt spec hash evm).2
      = [(SYSTEM_ADDRESS, HISTORY_STORAGE_ADDRESS, hash.bytes)]
    ∧ dispatches (transact_beacon_root_contract_call Halt spec (some root) evm).2
      = [(SYSTEM_ADDRESS, BEACON_ROOTS_ADDRESS, root.bytes)] := by
  constructor
  · unfold transact_blockhashes_contract_call
    rw [if_neg (by simp [hp]), if_neg hn]
    cases hq : evm.transact_system_call SYSTEM_ADDRESS HISTORY_STORAGE_ADDRESS
        hash.bytes with
    | ok res =>
        obtain ⟨r, st⟩ := res
        cases r <;> rfl
    | error e => rfl
  · unfold transact_beacon_root_contract_call
    rw [if_neg (by simp [hc])]
    simp only [if_neg hn]
    cases hq : evm.transact_system_call SYSTEM_ADDRESS BEACON_ROOTS_ADDRESS
        root.bytes with
    | ok res =>
        obtain ⟨r, st⟩ := res
        cases r <;> rfl
    | error e => rfl

/-- Witness for C6: block number 1, both forks active, dispatcher succeeds;
each trace records exactly one invocation with the fixed sender, the fixed
target and the verbatim input bytes. -/
theorem C6_dispatch_exactly_once_witness :
    (evmOk 1).block.number ≠ 0
    ∧ dispatches (transact_blockhashes_contract_call Unit specOn rootAA (evmOk 1)).2
        = [(SYSTEM_ADDRESS, HISTORY_STORAGE_ADDRESS, rootAA.bytes)]
    ∧ dispatches (transact_beacon_root_contract_call Unit specOn (some rootAA) (evmOk 1)).2
        = [(SYSTEM_ADDRESS, BEACON_ROOTS_ADDRESS, rootAA.bytes)] :=
  ⟨by decide,
   (C6_dispatch_exactly_once Unit specOn (evmOk 1) rootAA rootAA (by decide) rfl rfl).1,
   (C6_dispatch_exactly_once Unit specOn (evmOk 1) rootAA rootAA (by decide) rfl rfl).2⟩

/-- Claim C7: when the dispatcher returns `Ok(res)`, each procedure returns
`Ok(Some(res))` with exactly that value unmodified — for every outcome
`res`, including one whose result is a `Revert` or a `Halt`, which is not
remapped to an error. -/
theorem C7_success_round_trip (Halt : Type) (spec : EthereumHardforks)
    (evm : Evm Halt) (hash : B256) (root : B256) (res : ResultAndState Halt)
    (hn : evm.block.number ≠ 0)
    (hp : spec.is_prague_active_at_timestamp evm.block.timestamp = true)
    (hc : spec.is_cancun_active_at_timestamp evm.block.timestamp = true)
    (h1 : evm.transact_system_call SYSTEM_ADDRESS HISTORY_STORAGE_ADDRESS hash.bytes
        = .ok res)
    (h2 : evm.transact_system_call SYSTEM_ADDRESS BEACON_ROOTS_ADDRESS root.bytes
        = .ok res) :
    (transact_blockhashes_contract_call Halt spec hash evm).1 = .ok (some res)
    ∧ (transact_beacon_root_contract_call Halt spec (some root) evm).1
        = .ok (some res) := by
  constructor
  · unfold transact_blockhashes_contract_call
    rw [if_neg (by simp [hp]), if_neg hn, h1]
  · unfold transact_beacon_root_contract_call
    rw [if_neg (by simp [hc])]
    simp only [if_neg hn]
    rw [h2]

/-- Witness for C7: block number 1, both forks active, dispatcher succeeds
with a `Halt` outcome carrying a one-account state diff; both procedures
return that exact value inside `Ok(Some(..))`. -/
theorem C7_success_round_trip_witness :
    (evmHalt 1).block.number ≠ 0
    ∧ (transact_blockhashes_contract_call Unit specOn rootAA (evmHalt 1)).1
        = .ok (some resHalt)
    ∧ (transact_beacon_root_contract_call Unit specOn (some rootAA) (evmHalt 1)).1
        = .ok (some resHalt) :=
  ⟨by decide,
   (C7_success_round_trip Unit specOn (evmHalt 1) rootAA rootAA resHalt
      (by decide) rfl rfl rfl rfl).1,
   (C7_success_round_trip Unit specOn (evmHalt 1) rootAA rootAA resHalt
      (by decide) rfl rfl rfl rfl).2⟩

/-- Claim C8: when the dispatcher fails with engine error `e`,
`transact_blockhashes_contract_call` returns exactly
`BlockHashContractCall` with message `e.to_string`, and
`transact_beacon_root_contract_call` returns exactly
`BeaconRootContractCall` carrying the passed root and message
`e.to_string`; no other error value is produced. -/
theorem C8_engine_failure_mapping (Halt : Type) (spec : EthereumHardforks)
    (evm : Evm Halt) (hash : B256) (root : B256) (e : EvmError)
    (hn : evm.block.number ≠ 0)
    (hp : spec.is_prague_active_at_timestamp evm.block.timestamp = true)
    (hc : spec.is_cancun_active_at_timestamp evm.block.timestamp = true)
    (h1 : evm.transact_system_call SYSTEM_ADDRESS HISTORY_STORAGE_ADDRESS hash.bytes
        = .error e)
    (h2 : evm.transact_system_call SYSTEM_ADDRESS BEACON_ROOTS_ADDRESS root.bytes
        = .error e) :
    (transact_blockhashes_contract_call Halt spec hash evm).1
      = .error (.Validation (.BlockHashContractCall e.to_string))
    ∧ (transact_beacon_root_contract_call Halt spec (some root) evm).1
        = .error (.Validation (.BeaconRootContractCall root e.to_string)) := by
  constructor
  · unfold transact_blockhashes_contract_call
    rw [if_neg (by simp [hp]), if_neg hn, h1]
  · unfold transact_beacon_root_contract_call
    rw [if_neg (by simp [hc])]
    simp only [if_neg hn]
    rw [h2]

/-- Witness for C8: block number 1, both forks active, dispatcher fails
with description "engine cannot execute"; the two mapped errors embed that
description verbatim, and the beacon-root error carries the passed root. -/
theorem C8_engine_failure_mapping_witness :
    (evmErr 1).block.number ≠ 0
    ∧ (transact_blockhashes_contract_call Unit specOn rootAA (evmErr 1)).1
        = .error (.Validation (.BlockHashContractCall "engine cannot execute"))
    ∧ (transact_beacon_root_contract_call Unit specOn (some rootAA) (evmErr 1)).1
        = .error (.Validation
            (.BeaconRootContractCall rootAA "engine cannot execute")) :=
  ⟨by decide,
   (C8_engine_failure_mapping Unit specOn (evmErr 1) rootAA rootAA
      ⟨"engine cannot execute"⟩ (by decide) rfl rfl rfl rfl).1,
   (C8_engine_failure_mapping Unit specOn (evmErr 1) rootAA rootAA
      ⟨"engine cannot execute"⟩ (by decide) rfl rfl rfl rfl).2⟩

/-- Claim C9, evaluated at the failing input: at block number 1 with both
forks active and a dispatcher success whose result is a `Halt`, both
procedures execute the raw halt-reason reinterpretation — the source's
logging branch runs `unsafe { std::mem::transmute::<&Halt, &OpHaltReason>(reason) }`
on the generic halt reason, with no checked conversion. This contradicts
the claim that no raw memory reinterpretation of a halt-reason
representation occurs. -/
theorem C9_halt_reason_raw_reinterpretation :
    TraceEvent.reinterpretHaltRaw
        ∈ (transact_blockhashes_contract_call Unit specOn rootAA (evmHalt 1)).2
    ∧ TraceEvent.reinterpretHaltRaw
        ∈ (transact_beacon_root_contract_call Unit specOn (some rootAA) (evmHalt 1)).2 := by
  constructor <;> decide

/-- Claim C10: at block number 0 with Cancun active and an absent
`parent_beacon_block_root`, `transact_beacon_root_contract_call` fails
with `MissingParentBeaconBlockRoot` rather than returning `Ok(None)`: the
required-value check precedes the genesis policy. -/
theorem C10_genesis_missing_root_error (Halt : Type) (spec : EthereumHardforks)
    (evm : Evm Halt) (_h0 : evm.block.number = 0)
    (hc : spec.is_cancun_active_at_timestamp evm.block.timestamp = true) :
    transact_beacon_root_contract_call Halt spec none evm
      = (.error (.Validation .MissingParentBeaconBlockRoot), []) := by
  unfold transact_beacon_root_contract_call
  rw [if_neg (by simp [hc])]

/-- Witness for C10: genesis block, Cancun active, no root supplied. -/
theorem C10_genesis_missing_root_error_witness :
    (evmOk 0).block.number = 0
    ∧ transact_beacon_root_contract_call Unit specOn none (evmOk 0)
        = (.error (.Validation .MissingParentBeaconBlockRoot), []) :=
  ⟨rfl, C10_genesis_missing_root_error Unit specOn (evmOk 0) rfl rfl⟩

end MantleEvm
